import Mathlib

/-!
Shallow embedding of `src/Pyrlang/process.py` (class `Process(Greenlet)`).

The module under `src/` contains only `Process`. Its collaborators — the
`Pyrlang.mailbox.Mailbox` queue, the `Node` registry (`node.register_new_process`,
`Node.all_nodes`, `node.on_exit_process`) and the `Pid` value type — are imported
from modules that are not part of the excerpt; they are modelled from the spec
where they are needed, and each such definition says so in its doc comment.

Messages are Python values and the stop sentinel is Python's `None`, so a
mailbox entry is `Option V` (`none` is the sentinel). Pids are modelled as `Nat`
(the spec only requires an identity-compared unique handle).
-/

namespace Pyrlang

/-- Mailbox entries of `Process.inbox_`: a Python message value where `None`
(the sentinel checked by `if msg is None` in `handle_inbox`) is `none`. -/
abbrev Msg (V : Type) : Type := Option V

/-- State of one `Process` instance: exactly the attributes assigned in
`Process.__init__` (`node_name_`, `inbox_`, `pid_`, `is_exiting_`, `monitors_`,
`monitor_targets_`). The mailbox is its FIFO content, front of the list = next
value returned by `inbox_.get()`; the two monitor collections are Python `set()`s
of pids, modelled as lists. -/
structure Process (V : Type) : Type where
  node_name_ : String
  inbox_ : List (Msg V)
  pid_ : Nat
  is_exiting_ : Bool
  monitors_ : List Nat
  monitor_targets_ : List Nat
deriving DecidableEq

/-- Modelled from the spec: the `Node`/Registry collaborator (module `Pyrlang.Node`,
reached from `Process.__init__` as `node.register_new_process(self)` and from
`Process.exit` as `Node.all_nodes[self.node_name_].on_exit_process(...)`) is not
under `src/`. Per spec §3/§4.3 the Registry is a mapping from Pid to live actor,
entries created by `registerNewProcess` and removed by `onExitProcess`; `next_pid`
realises issuance of a Pid distinct from every currently registered one. `A` is
the type of the actor references stored in the table. -/
structure NodeState (A : Type) : Type where
  node_name_ : String
  next_pid : Nat
  processes : List (Nat × A)
deriving DecidableEq

/-- Association-list lookup, used for the Registry's Pid table and for
`Node.all_nodes` (Python dicts; keys are unique there, the first match is the
entry). -/
def alookup {K B : Type} [DecidableEq K] : List (K × B) → K → Option B
  | [], _ => none
  | e :: rest, k => if e.1 = k then some e.2 else alookup rest k

/-- Modelled from the spec: `registerNewProcess(actor) -> Pid` "issues a Pid
guaranteed distinct from every currently-registered Pid and installs the
mapping" (spec §4.3). -/
def register_new_process {A : Type} (n : NodeState A) (a : A) : Nat × NodeState A :=
  (n.next_pid,
   { n with next_pid := n.next_pid + 1, processes := (n.next_pid, a) :: n.processes })

/-- Modelled from the spec: `onExitProcess(pid, reason)` "removes the mapping for
`pid` if present (idempotent — removing an already-absent Pid is a no-op, not an
error)" (spec §4.3). The reason is accepted but monitor fan-out is explicitly
unimplemented in the excerpt, so it changes no registry state. -/
def on_exit_process {A V : Type} (n : NodeState A) (pid : Nat) (_reason : Msg V) :
    NodeState A :=
  { n with processes := n.processes.filter (fun e => e.1 ≠ pid) }

/-- Modelled from the spec: `Node.all_nodes` is the by-name table of live
registries that `Process.exit` consults (`Node.all_nodes[self.node_name_]`). -/
abbrev World (A : Type) : Type := List (String × NodeState A)

/-- `Process.__init__(self, node)`: assigns `node_name_ := node.node_name_`, a fresh
empty `Mailbox`, `pid_ := node.register_new_process(self)`, `is_exiting_ := False`
and two empty monitor sets, then schedules the run loop (`self.start()`, which has
no state content here). `ref` stands for the reference to `self` that the Registry
stores. Returns the constructed actor together with the updated node. -/
def Process.init {V A : Type} (node : NodeState A) (ref : A) : Process V × NodeState A :=
  let r := register_new_process node ref
  ({ node_name_ := node.node_name_, inbox_ := [], pid_ := r.1,
     is_exiting_ := false, monitors_ := [], monitor_targets_ := [] }, r.2)

/-- World update performed by `Process.exit`: `on_exit_process` applied at the
entry of the actor's node. `Node.all_nodes` is a Python dict whose keys are
unique, so mapping over matching entries coincides with mutating the one stored
node object. -/
def exitUpdate {V A : Type} (w : World A) (k : String) (p : Nat) (r : Msg V) : World A :=
  w.map (fun e => if e.1 = k then (e.1, on_exit_process e.2 p r) else e)

/-- `Process.exit(self, reason=None)`: the body is
`n = Node.all_nodes[self.node_name_]; n.on_exit_process(self.pid_, reason)`.
A missing node raises `KeyError`, modelled as `none`. No attribute of `self` is
assigned anywhere in the body, so the actor comes back as it went in. -/
def Process.exit {V A : Type} (self : Process V) (w : World A) (reason : Msg V) :
    Option (Process V × World A) :=
  match alookup w self.node_name_ with
  | none => none
  | some _ => some (self, exitUpdate w self.node_name_ self.pid_ reason)

/-- Outcome of one call to `Process.handle_inbox` on the queue it can currently
observe: `finished dispatched remaining` means the `while True` loop hit
`if msg is None: break` after passing `dispatched` (in order) to
`handle_one_inbox_message`, leaving `remaining` in the queue; `blocked dispatched`
means the queue ran out with no sentinel, so the call is suspended inside
`inbox_.get()` (a gevent `Queue.get()` with no timeout blocks) and has not
returned. -/
inductive DrainResult (V : Type) : Type where
  | finished (dispatched : List V) (remaining : List (Msg V))
  | blocked (dispatched : List V)
deriving DecidableEq

/-- `Process.handle_inbox(self)`: `while True: msg = self.inbox_.get(); if msg is
None: break; self.handle_one_inbox_message(msg)`, projected onto the queue the
call consumes. The `print` on each message has no state content. -/
def handle_inbox {V : Type} : List (Msg V) → DrainResult V
  | [] => .blocked []
  | none :: rest => .finished [] rest
  | some m :: rest =>
      match handle_inbox rest with
      | .finished d r => .finished (m :: d) r
      | .blocked d => .blocked (m :: d)

/-- `Process.handle_one_inbox_message(self, msg)`: the default implementation only
prints, so the actor state is unchanged. -/
def Process.handle_one_inbox_message {V : Type} (self : Process V) (_msg : Msg V) :
    Process V :=
  self

/-- Observable events of the run loop: a message value passed to
`handle_one_inbox_message`, or the voluntary `gevent.sleep(0)` yield `_run`
performs after `handle_inbox()` returns. -/
inductive Ev (V : Type) : Type where
  | dispatch (m : V)
  | yield
deriving DecidableEq

/-- How a bounded unfolding of `_run` ends: `terminated remaining` — the
`while not self.is_exiting_` test failed and the method returned with `remaining`
still queued; `blockedInGet` — execution is suspended inside `inbox_.get()` on an
exhausted queue; `fuelOut` — the modelling bound on loop iterations was reached
(any `fuel > ` number of sentinels in the queue avoids this). -/
inductive RunOutcome (V : Type) : Type where
  | terminated (remaining : List (Msg V))
  | blockedInGet
  | fuelOut
deriving DecidableEq

/-- Trace of a bounded unfolding of `_run`: the events in order and the outcome. -/
structure RunResult (V : Type) : Type where
  events : List (Ev V)
  outcome : RunOutcome V
deriving DecidableEq

/-- `Process._run(self)`: `while not self.is_exiting_: self.handle_inbox();
gevent.sleep(0)`. Nothing in the excerpt ever assigns `is_exiting_` after
`__init__`, so the flag is a constant of the loop and is passed as `e`. `q` is
the full content the mailbox will offer; `fuel` bounds the number of loop
iterations unfolded. -/
def Process.run {V : Type} (fuel : Nat) (e : Bool) (q : List (Msg V)) : RunResult V :=
  match fuel with
  | 0 => { events := [], outcome := .fuelOut }
  | Nat.succ fuel =>
      if e then { events := [], outcome := .terminated q }
      else
        match handle_inbox q with
        | .blocked d => { events := d.map Ev.dispatch, outcome := .blockedInGet }
        | .finished d r =>
            let rest := Process.run fuel e r
            { events := d.map Ev.dispatch ++ Ev.yield :: rest.events,
              outcome := rest.outcome }

/-- One `handle_inbox()` call as a transformer of the actor state: the inbox is
left at what the drain pass did not consume (everything is consumed when the call
blocks inside `get()`); no other attribute is touched by `handle_inbox`. -/
def Process.handleInboxStep {V : Type} (a : Process V) : Process V :=
  match handle_inbox a.inbox_ with
  | .finished _ r => { a with inbox_ := r }
  | .blocked _ => { a with inbox_ := [] }

/-- The operations the excerpt can perform on a live actor (construction creates
a fresh actor and is covered by `Process.init`). -/
inductive Op (V : Type) : Type where
  | exitOp (reason : Msg V)
  | handleInboxOp
  | handleOneMsgOp (msg : Msg V)

/-- Effect of one operation on the pair (actor, world). A `KeyError` in `exit`
propagates with the state unchanged up to that point. -/
def applyOp {V A : Type} (st : Process V × World A) : Op V → Process V × World A
  | .exitOp reason =>
      match Process.exit st.1 st.2 reason with
      | some st' => st'
      | none => st
  | .handleInboxOp => (st.1.handleInboxStep, st.2)
  | .handleOneMsgOp m => (st.1.handle_one_inbox_message m, st.2)

/-- Concrete fixture: an actor with pid 0 on node `"n"`, not exiting, used by the
concrete witnesses below (`V := Nat`, actor references `A := Nat`). -/
def pA : Process Nat :=
  { node_name_ := "n", inbox_ := [], pid_ := 0, is_exiting_ := false,
    monitors_ := [], monitor_targets_ := [] }

/-- Concrete fixture: a world with node `"n"` whose registry holds pid 0. -/
def w1 : World Nat :=
  [("n", { node_name_ := "n", next_pid := 1, processes := [(0, 7)] })]

/-- Concrete fixture: `w1` after the mapping for pid 0 was removed. -/
def w2 : World Nat :=
  [("n", { node_name_ := "n", next_pid := 1, processes := [] })]

/-! Helper lemmas about `handle_inbox`: a drain pass evaluated on queues of known
shape, and conversely the decomposition of the queue a drain pass consumed. -/

theorem handle_inbox_eval_finished {V : Type} (d : List V) (r : List (Msg V)) :
    handle_inbox (List.map some d ++ none :: r) = DrainResult.finished d r := by
  induction d with
  | nil => rfl
  | cons m d ih => simp [handle_inbox, ih]

theorem handle_inbox_eval_blocked {V : Type} (d : List V) :
    handle_inbox (List.map some d) = DrainResult.blocked d := by
  induction d with
  | nil => rfl
  | cons m d ih => simp [handle_inbox, ih]

theorem handle_inbox_finished_decomp {V : Type} {q : List (Msg V)} {d : List V}
    {r : List (Msg V)} (h : handle_inbox q = DrainResult.finished d r) :
    q = List.map some d ++ none :: r := by
  induction q generalizing d with
  | nil => simp [handle_inbox] at h
  | cons m rest ih =>
      cases m with
      | none =>
          simp only [handle_inbox] at h
          obtain ⟨h1, h2⟩ := DrainResult.finished.inj h
          subst h1; subst h2; rfl
      | some m =>
          simp only [handle_inbox] at h
          cases hh : handle_inbox rest with
          | finished d' r' =>
              rw [hh] at h
              obtain ⟨h1, h2⟩ := DrainResult.finished.inj h
              subst h1; subst h2
              simp [ih hh]
          | blocked d' => rw [hh] at h; simp at h

theorem handle_inbox_blocked_decomp {V : Type} {q : List (Msg V)} {d : List V}
    (h : handle_inbox q = DrainResult.blocked d) :
    q = List.map some d := by
  induction q generalizing d with
  | nil =>
      simp only [handle_inbox] at h
      obtain h1 := DrainResult.blocked.inj h
      subst h1; rfl
  | cons m rest ih =>
      cases m with
      | none => simp [handle_inbox] at h
      | some m =>
          simp only [handle_inbox] at h
          cases hh : handle_inbox rest with
          | finished d' r' => rw [hh] at h; simp at h
          | blocked d' =>
              rw [hh] at h
              obtain h1 := DrainResult.blocked.inj h
              subst h1
              simp [ih hh]

/-- `Process.exit` assigns no attribute of `self`: when it returns, the actor it
hands back is the one it was called on. -/
theorem Process.exit_actor_eq {V A : Type} {a : Process V} {w : World A} {r : Msg V}
    {a' : Process V} {w' : World A} (h : Process.exit a w r = some (a', w')) :
    a' = a := by
  unfold Process.exit at h
  cases hl : alookup w a.node_name_ with
  | none => rw [hl] at h; simp at h
  | some n =>
      rw [hl] at h
      obtain ⟨h1, _⟩ := Prod.mk.injEq .. ▸ Option.some.inj h
      exact h1.symm

/-! Helper lemmas about the world update of `exit`. -/

theorem alookup_exitUpdate_self {V A : Type} {w : World A} {k : String}
    {n : NodeState A} (p : Nat) (r : Msg V) (hl : alookup w k = some n) :
    alookup (exitUpdate w k p r) k = some (on_exit_process n p r) := by
  induction w with
  | nil => simp [alookup] at hl
  | cons e rest ih =>
      by_cases he : e.1 = k
      · rw [alookup, if_pos he] at hl
        obtain h2 := Option.some.inj hl
        simp [exitUpdate, alookup, he, h2]
      · rw [alookup, if_neg he] at hl
        simpa [exitUpdate, alookup, he] using ih hl

theorem alookup_exitUpdate_other {V A : Type} (w : World A) (k s : String)
    (p : Nat) (r : Msg V) (hs : s ≠ k) :
    alookup (exitUpdate w k p r) s = alookup w s := by
  have hks : ¬ k = s := fun hc => hs hc.symm
  induction w with
  | nil => rfl
  | cons e rest ih =>
      by_cases hes : e.1 = s
      · have hek : ¬ e.1 = k := fun hc => hks (hc.symm.trans hes)
        simp [exitUpdate, alookup, hek, hes, hks, hs]
      · by_cases hek : e.1 = k
        · simp [exitUpdate, alookup, hek, hes, hks] at ih ⊢
          exact ih
        · simp [exitUpdate, alookup, hek, hes] at ih ⊢
          exact ih

theorem alookup_filter_ne {A : Type} (l : List (Nat × A)) (p : Nat) :
    alookup (l.filter (fun e => e.1 ≠ p)) p = none := by
  induction l with
  | nil => rfl
  | cons e rest ih =>
      by_cases he : e.1 = p
      · simpa [List.filter, he] using ih
      · simpa [List.filter, alookup, he] using ih

/-- Removing a pid from a registry twice is the same as removing it once
(`onExitProcess` is idempotent, spec §4.3). -/
theorem on_exit_process_idem {A V : Type} (n : NodeState A) (p : Nat) (r q : Msg V) :
    on_exit_process (on_exit_process n p r) p q = on_exit_process n p q := by
  simp only [on_exit_process]
  congr 1
  induction n.processes with
  | nil => rfl
  | cons e rest ih =>
      by_cases he : e.1 = p
      · simp [List.filter, he]
      · simp [List.filter, he]

theorem exitUpdate_idem {V A : Type} (w : World A) (k : String) (p : Nat)
    (r q : Msg V) :
    exitUpdate (exitUpdate w k p r) k p q = exitUpdate w k p q := by
  simp only [exitUpdate, List.map_map]
  apply List.map_congr_left
  intro e _
  by_cases he : e.1 = k
  · simp [Function.comp, he, on_exit_process_idem]
  · simp [Function.comp, he]

/-- Inversion for a successful `Process.exit`: the node was found, the actor is
returned unchanged and the world is updated by `exitUpdate`. -/
theorem Process.exit_some_inv {V A : Type} {a : Process V} {w : World A} {r : Msg V}
    {b : Process V} {u : World A} (h : Process.exit a w r = some (b, u)) :
    (∃ n, alookup w a.node_name_ = some n) ∧ b = a ∧
      u = exitUpdate w a.node_name_ a.pid_ r := by
  unfold Process.exit at h
  cases hl : alookup w a.node_name_ with
  | none => rw [hl] at h; simp at h
  | some n =>
      rw [hl] at h
      obtain ⟨h1, h2⟩ := Prod.mk.injEq .. ▸ Option.some.inj h
      exact ⟨⟨n, rfl⟩, h1.symm, h2.symm⟩

/-- Evaluation of `Process.exit` when the node is present. -/
theorem Process.exit_eq_of_lookup {V A : Type} {a : Process V} {w : World A}
    {n : NodeState A} (r : Msg V) (hl : alookup w a.node_name_ = some n) :
    Process.exit a w r = some (a, exitUpdate w a.node_name_ a.pid_ r) := by
  unfold Process.exit
  rw [hl]

/-- C4: `Process.__init__` stores in `pid_` exactly the Pid issued by the
Registry's `register_new_process`, and the Registry mapping for that Pid exists
(resolving to the registered actor reference) before the constructor returns: an
actor never exists unregistered. -/
theorem init_pid_registered {V A : Type} [DecidableEq A] (node : NodeState A) (ref : A) :
    ((Process.init (V := V) node ref).1).pid_ = (register_new_process node ref).1 ∧
    alookup ((Process.init (V := V) node ref).2).processes
        ((Process.init (V := V) node ref).1).pid_ = some ref := by
  refine ⟨rfl, ?_⟩
  simp [Process.init, register_new_process, alookup]

/-- C5: messages queued before a drain pass begins are passed to
`handle_one_inbox_message` exactly once each and in queue (FIFO) order: with the
sentinel behind them the pass finishes having dispatched precisely `ms` in order,
and without a sentinel it dispatches precisely `ms` in order and then blocks. -/
theorem handle_inbox_fifo {V : Type} (ms : List V) (rest : List (Msg V)) :
    handle_inbox (List.map some ms ++ none :: rest) = DrainResult.finished ms rest ∧
    handle_inbox (List.map some ms) = DrainResult.blocked ms :=
  ⟨handle_inbox_eval_finished ms rest, handle_inbox_eval_blocked ms⟩

/-- C2 (evidence of the code bug): at a concrete actor with `is_exiting_ = false`,
`exit(None)` returns having removed the Registry mapping, but the actor comes back
with `is_exiting_` still `false` — the body of `Process.exit` never assigns
`self.is_exiting_`, although its own docstring says it "Marks the object as
exiting". -/
theorem exit_leaves_flag_false :
    Process.exit
        ({ node_name_ := "n", inbox_ := [], pid_ := 0, is_exiting_ := false,
           monitors_ := [], monitor_targets_ := [] } : Process Nat)
        ([("n", { node_name_ := "n", next_pid := 1, processes := [(0, 7)] })] : World Nat)
        (none : Msg Nat) =
      some ({ node_name_ := "n", inbox_ := [], pid_ := 0, is_exiting_ := false,
              monitors_ := [], monitor_targets_ := [] },
            [("n", { node_name_ := "n", next_pid := 1, processes := [] })]) := by
  rfl

/-- C7: after `exit(reason)` returns, a Registry lookup for the actor's Pid — in
whatever node its `node_name_` now resolves to — returns "not found": the
mapping has been removed. -/
theorem exit_unregisters {V A : Type} (a : Process V) (w : World A) (r : Msg V)
    (b : Process V) (u : World A) (n : NodeState A)
    (h : Process.exit a w r = some (b, u))
    (hn : alookup u a.node_name_ = some n) :
    alookup n.processes a.pid_ = none := by
  obtain ⟨⟨m, hm⟩, -, rfl⟩ := Process.exit_some_inv h
  rw [alookup_exitUpdate_self a.pid_ r hm] at hn
  obtain rfl := (Option.some.inj hn).symm
  simp only [on_exit_process]
  exact alookup_filter_ne m.processes a.pid_

/-- Witness for `exit_unregisters` at a concrete actor and world. -/
theorem exit_unregisters_w :
    alookup ({ node_name_ := "n", next_pid := 1, processes := [] } : NodeState Nat).processes
      pA.pid_ = none :=
  exit_unregisters pA w1 none pA w2
    { node_name_ := "n", next_pid := 1, processes := [] } rfl rfl

/-- C6: a second `exit` on the same actor raises nothing (the node is still
present, so no `KeyError`) and produces no removal side effect beyond the first
call: the state after the second call is exactly the state after the first
(`on_exit_process` removal of an already-absent Pid is a no-op). -/
theorem exit_idempotent {V A : Type} (a : Process V) (w : World A) (r : Msg V)
    (b : Process V) (u : World A) (h : Process.exit a w r = some (b, u)) :
    Process.exit b u r = some (b, u) := by
  obtain ⟨⟨m, hm⟩, rfl, rfl⟩ := Process.exit_some_inv h
  rw [Process.exit_eq_of_lookup r (alookup_exitUpdate_self b.pid_ r hm)]
  rw [exitUpdate_idem]

/-- Witness for `exit_idempotent` at a concrete actor and world. -/
theorem exit_idempotent_w : Process.exit pA w2 (none : Msg Nat) = some (pA, w2) :=
  exit_idempotent pA w1 none pA w2 rfl

/-- C10: `exit(reason)` leaves every attribute of the actor unchanged — pid,
node name, mailbox contents, the exiting flag and both monitor sets — and its
only effect on the world is the single `on_exit_process` call on the actor's own
node: every other node's entry is untouched. -/
theorem exit_frame {V A : Type} (a : Process V) (w : World A) (r : Msg V)
    (b : Process V) (u : World A) (s : String) (n : NodeState A)
    (h : Process.exit a w r = some (b, u)) (hs : s ≠ a.node_name_)
    (hn : alookup w a.node_name_ = some n) :
    b.pid_ = a.pid_ ∧ b.node_name_ = a.node_name_ ∧ b.inbox_ = a.inbox_ ∧
    b.is_exiting_ = a.is_exiting_ ∧ b.monitors_ = a.monitors_ ∧
    b.monitor_targets_ = a.monitor_targets_ ∧
    alookup u s = alookup w s ∧
    alookup u a.node_name_ = some (on_exit_process n a.pid_ r) := by
  obtain ⟨-, rfl, rfl⟩ := Process.exit_some_inv h
  exact ⟨rfl, rfl, rfl, rfl, rfl, rfl,
    alookup_exitUpdate_other w b.node_name_ s b.pid_ r hs,
    alookup_exitUpdate_self b.pid_ r hn⟩

/-- Witness for `exit_frame` at a concrete actor, world and other node name. -/
theorem exit_frame_w :
    pA.pid_ = pA.pid_ ∧ pA.node_name_ = pA.node_name_ ∧ pA.inbox_ = pA.inbox_ ∧
    pA.is_exiting_ = pA.is_exiting_ ∧ pA.monitors_ = pA.monitors_ ∧
    pA.monitor_targets_ = pA.monitor_targets_ ∧
    alookup w2 "m" = alookup w1 "m" ∧
    alookup w2 pA.node_name_ =
      some (on_exit_process
        ({ node_name_ := "n", next_pid := 1, processes := [(0, 7)] } : NodeState Nat)
        pA.pid_ (none : Msg Nat)) :=
  exit_frame pA w1 none pA w2 "m"
    { node_name_ := "n", next_pid := 1, processes := [(0, 7)] }
    rfl (by decide) rfl

/-- No single operation of the excerpt changes `is_exiting_` (nothing outside
`__init__` even mentions the attribute). -/
theorem applyOp_is_exiting {V A : Type} (st : Process V × World A) (op : Op V) :
    ((applyOp st op).1).is_exiting_ = st.1.is_exiting_ := by
  cases op with
  | exitOp reason =>
      simp only [applyOp]
      cases h : Process.exit st.1 st.2 reason with
      | none => rfl
      | some st' =>
          obtain ⟨a', w'⟩ := st'
          rw [Process.exit_actor_eq h]
  | handleInboxOp =>
      simp only [applyOp, Process.handleInboxStep]
      cases handle_inbox st.1.inbox_ <;> rfl
  | handleOneMsgOp m => rfl

/-- C8: the `exiting` flag is monotonic across every sequence of operations on a
live actor — once `is_exiting_` is `true`, no run of `exit`, `handle_inbox` or
`handle_one_inbox_message` makes it `false` again (in the excerpt none of them
assigns it at all). -/
theorem is_exiting_monotonic {V A : Type} (ops : List (Op V)) (st : Process V × World A)
    (h : st.1.is_exiting_ = true) :
    ((ops.foldl applyOp st).1).is_exiting_ = true := by
  induction ops generalizing st with
  | nil => exact h
  | cons op ops ih =>
      simp only [List.foldl]
      exact ih _ (by rw [applyOp_is_exiting]; exact h)

/-- C9: `handle_one_inbox_message` is never invoked with the sentinel: when a
drain pass finishes, the queue it consumed decomposes into exactly the
dispatched messages (each a non-`None` value) followed by the sentinel that
stopped the pass; in particular `none` is not among the values handed to the
handler — it stopped the drain pass instead. -/
theorem handler_never_sees_sentinel {V : Type} (q : List (Msg V)) (d : List V)
    (r : List (Msg V)) (h : handle_inbox q = DrainResult.finished d r) :
    q = List.map some d ++ none :: r ∧ (none : Msg V) ∉ List.map some d := by
  refine ⟨handle_inbox_finished_decomp h, ?_⟩
  simp

/-- Witness for `handler_never_sees_sentinel` at a concrete queue. -/
theorem handler_never_sees_sentinel_w :
    ([some 5, none, some 6] : List (Msg Nat)) = List.map some [5] ++ none :: [some 6] ∧
    (none : Msg Nat) ∉ List.map some [5] :=
  handler_never_sees_sentinel [some 5, none, some 6] [5] [some 6] rfl

/-- C1 is false of the code: with `is_exiting_` false (and nothing in the excerpt
ever sets it true), dequeuing the sentinel does not terminate `_run`. On the
mailbox content `[None, 42]` the first drain pass dequeues the sentinel and
breaks, `_run` yields and — the `while not self.is_exiting_` test still passing —
re-enters `handle_inbox`, which dispatches 42 (a message behind the sentinel) and
ends suspended in `inbox_.get()`, not terminated. -/
theorem run_continues_after_sentinel :
    Process.run 2 false [none, some (42 : Nat)] =
      { events := [Ev.yield, Ev.dispatch 42], outcome := RunOutcome.blockedInGet } := by
  rfl

/-- C1 (amended): dequeuing the sentinel ends the current drain pass without the
sentinel (or anything queued behind it) being dispatched in that pass, and the
run loop then exits iff `is_exiting_` is true at the `while` test: with the flag
true the loop terminates at once, with the flag false (its only value in the
excerpt) it proceeds to another drain pass on the remainder instead of
terminating. -/
theorem sentinel_ends_pass_not_loop {V : Type} (f : Nat) (q : List (Msg V))
    (d : List V) (r : List (Msg V)) (h : handle_inbox q = DrainResult.finished d r) :
    q = List.map some d ++ none :: r ∧
    Process.run (f + 1) true q = { events := [], outcome := RunOutcome.terminated q } ∧
    Process.run (f + 1) false q =
      { events := List.map Ev.dispatch d ++ Ev.yield :: (Process.run f false r).events,
        outcome := (Process.run f false r).outcome } := by
  refine ⟨handle_inbox_finished_decomp h, rfl, ?_⟩
  simp [Process.run, h]

/-- Witness for `sentinel_ends_pass_not_loop` at a concrete queue. -/
theorem sentinel_ends_pass_not_loop_w :
    ([some 1, none, some 2] : List (Msg Nat)) = List.map some [1] ++ none :: [some 2] ∧
    Process.run 2 true [some 1, none, some 2] =
      { events := [], outcome := RunOutcome.terminated [some 1, none, some 2] } ∧
    Process.run 2 false [some 1, none, some 2] =
      { events := List.map Ev.dispatch [1] ++ Ev.yield :: (Process.run 1 false [some 2]).events,
        outcome := (Process.run 1 false [some 2]).outcome } :=
  sentinel_ends_pass_not_loop 1 [some 1, none, some 2] [1] [some 2] rfl

/-- C3 is false of the code about an emptied queue: a drain pass does not stop
when the queue is momentarily empty — `inbox_.get()` has no timeout, so after
dispatching 1 on the queue `[1]` the pass is suspended inside `get()`
(`DrainResult.blocked`), it has not returned; likewise immediately on an empty
queue. -/
theorem drain_does_not_stop_on_empty :
    handle_inbox ([some 1] : List (Msg Nat)) = DrainResult.blocked [1] ∧
    handle_inbox ([] : List (Msg Nat)) = DrainResult.blocked [] :=
  ⟨rfl, rfl⟩

theorem count_yield_map_dispatch {V : Type} [DecidableEq V] (d : List V) :
    (List.map Ev.dispatch d).count Ev.yield = 0 := by
  simp [List.count_eq_zero]

theorem count_none_map_some {V : Type} [DecidableEq V] (d : List V) :
    (List.map some d).count (none : Msg V) = 0 := by
  simp [List.count_eq_zero]

/-- With the exiting flag false, the run loop performs exactly one voluntary
yield (`gevent.sleep(0)`) per completed drain pass, i.e. per sentinel consumed
from the queue. -/
theorem run_yield_count {V : Type} [DecidableEq V] :
    ∀ (f : Nat) (q : List (Msg V)), q.length < f →
      ((Process.run f false q).events.count Ev.yield = q.count none) := by
  intro f
  induction f with
  | zero => exact fun q hq => absurd hq (Nat.not_lt_zero _)
  | succ f ih =>
      intro q hq
      cases hh : handle_inbox q with
      | blocked d =>
          obtain rfl := handle_inbox_blocked_decomp hh
          simp [Process.run, hh, count_yield_map_dispatch, count_none_map_some]
      | finished d r =>
          obtain rfl := handle_inbox_finished_decomp hh
          have hr : r.length < f := by
            simp [List.length_append, List.length_map] at hq
            omega
          simp [Process.run, hh, List.count_append, count_yield_map_dispatch,
                count_none_map_some, ih r hr]

/-- C3 (amended): a drain pass dequeues messages, dispatching each non-sentinel
one to the handler in order, and returns only when the sentinel is dequeued; if
the queue empties first, the pass blocks inside `get()` having dispatched every
queued message rather than stopping. After each completed drain pass the loop
voluntarily yields (`gevent.sleep(0)`): one yield per sentinel consumed. -/
theorem drain_blocks_or_stops_at_sentinel {V : Type} [DecidableEq V]
    (q : List (Msg V)) (d : List V) (f : Nat) (hf : q.length < f) :
    (handle_inbox q = DrainResult.blocked d → q = List.map some d) ∧
    ((Process.run f false q).events.count Ev.yield = q.count none) :=
  ⟨fun h => handle_inbox_blocked_decomp h, run_yield_count f q hf⟩

/-- Witness for `drain_blocks_or_stops_at_sentinel` at a concrete queue. -/
theorem drain_blocks_or_stops_at_sentinel_w :
    (handle_inbox ([some 1] : List (Msg Nat)) = DrainResult.blocked [1] →
      ([some 1] : List (Msg Nat)) = List.map some [1]) ∧
    ((Process.run 2 false ([some 1] : List (Msg Nat))).events.count Ev.yield =
      ([some 1] : List (Msg Nat)).count none) :=
  drain_blocks_or_stops_at_sentinel [some 1] [1] 2 (by decide)

/-- Witness for `is_exiting_monotonic` at a concrete actor and operation list. -/
theorem is_exiting_monotonic_w :
    ((([Op.handleInboxOp, Op.exitOp none, Op.handleOneMsgOp (some 5)] : List (Op Nat)).foldl
        applyOp
        (({ node_name_ := "n", inbox_ := [some 1, none], pid_ := 0, is_exiting_ := true,
            monitors_ := [], monitor_targets_ := [] } : Process Nat),
         ([] : World Nat))).1).is_exiting_ = true :=
  is_exiting_monotonic _ _ rfl

end Pyrlang
